import Mathlib

set_option maxHeartbeats 1000000
set_option maxRecDepth 10000

/-!
Verification development for the dockerdorker OCI image introspection engine.

The Python sources are shallowly embedded: byte strings become `List UInt8`,
text strings become `List Char` (or `String` where only equality is used),
fallible operations return `Option`/`Except`, and the two external effectful
dependencies (the HTTP transport and the zlib inflater) are passed in as
explicit data (a list of responses) and an abstract state-transition oracle.
-/

/- ------------------------------------------------------------------------
Python byte/string primitives used by the sources
------------------------------------------------------------------------ -/

/-- The ASCII whitespace bytes removed by Python's `bytes.strip()`. -/
def pyIsSpaceByte (b : UInt8) : Bool :=
  b = 0x20 || b = 0x09 || b = 0x0a || b = 0x0d || b = 0x0b || b = 0x0c

/-- The whitespace characters removed by Python's `str.strip()` (ASCII subset;
the paths this engine strips are ASCII). -/
def pyIsSpaceChar (c : Char) : Bool :=
  c = ' ' || c = '\t' || c = '\n' || c = '\r' || c = Char.ofNat 11 || c = Char.ofNat 12

/-- `s.lstrip(p)`: drop leading elements satisfying `p`. -/
def pyLstrip {α : Type} (p : α → Bool) (l : List α) : List α := l.dropWhile p

/-- `s.rstrip(p)`: drop trailing elements satisfying `p`. -/
def pyRstrip {α : Type} (p : α → Bool) (l : List α) : List α :=
  (l.reverse.dropWhile p).reverse

/-- `s.strip(p)`: drop leading and trailing elements satisfying `p`. -/
def pyStrip {α : Type} (p : α → Bool) (l : List α) : List α :=
  pyRstrip p (pyLstrip p l)

/-- ASCII octal digit `0`-`7`. -/
def isOctDigit (b : UInt8) : Bool := 0x30 ≤ b && b ≤ 0x37

/-- Tail of CPython's integer-literal digit grammar: digits `0`-`7` with single
underscores allowed between digits (an underscore must be followed by a digit). -/
def octTailValid : List UInt8 → Bool
  | [] => true
  | c :: rest =>
    if c = 0x5f then
      match rest with
      | [] => false
      | d :: rest' => isOctDigit d && octTailValid rest'
    else isOctDigit c && octTailValid rest

/-- A valid CPython octal digit run: nonempty, starts with a digit, and single
underscores only between digits. -/
def octDigitsValid : List UInt8 → Bool
  | [] => false
  | c :: rest => isOctDigit c && octTailValid rest

/-- Numeric value of an octal digit run, skipping underscores. -/
def octValue (l : List UInt8) : Nat :=
  l.foldl (fun acc c => if c = 0x5f then acc else acc * 8 + (c.toNat - 0x30)) 0

/-- Model of CPython `int(s, 8)` applied to a byte string: surrounding ASCII
whitespace, an optional sign, an optional `0o`/`0O` prefix (an underscore may
directly follow the prefix), then octal digits with single underscores between
digits.  Returns `none` exactly where CPython raises `ValueError`. -/
def pyIntOctal (s : List UInt8) : Option Int :=
  let t := pyStrip pyIsSpaceByte s
  let signed : Bool × List UInt8 :=
    match t with
    | c :: rest =>
      if c = 0x2d then (true, rest)
      else if c = 0x2b then (false, rest)
      else (false, t)
    | [] => (false, t)
  let u := signed.2
  let core : List UInt8 :=
    match u with
    | c0 :: c1 :: rest =>
      if c0 = 0x30 && (c1 = 0x6f || c1 = 0x4f) then
        match rest with
        | c :: rest' => if c = 0x5f then rest' else rest
        | [] => []
      else u
    | _ => u
  if octDigitsValid core then
    let v : Int := Int.ofNat (octValue core)
    some (if signed.1 then -v else v)
  else none

/- ------------------------------------------------------------------------
src/docs/success/streampartial/test_partial_tar.py
(the only `parse_tar_header` present in the source tree; claims about it
are settled against this code)
------------------------------------------------------------------------ -/

namespace streamtar

/-- `TarEntry` of `test_partial_tar.py`.  The `name` is kept as the raw
NUL-trimmed bytes; the Python code decodes them with
`decode('utf-8', errors='replace')`, which preserves exactly whether the
byte string ends in `/` (0x2f is never a UTF-8 continuation byte and the
replacement character is not `/`), the only property of the decoded name
the parser consumes. -/
structure TarEntry where
  name : List UInt8
  size : Int
  typeflag : Char
  is_dir : Bool
deriving DecidableEq

/-- The size computation of `parse_tar_header`: bytes 124-135 of the header,
NUL-rstripped then whitespace-stripped, decoded as Python `int(_, 8)`; an
empty field or a `ValueError` yields 0. -/
def size_field_value (data : List UInt8) (offset : Nat) : Int :=
  let header := (data.drop offset).take 512
  let size_bytes := pyStrip pyIsSpaceByte (pyRstrip (fun b => b = 0) ((header.drop 124).take 12))
  if size_bytes.isEmpty then 0 else (pyIntOctal size_bytes).getD 0

/-- `parse_tar_header(data, offset)` from `test_partial_tar.py`.  Returns
`(none, -1)` past the end of the buffer or on an all-zero block; otherwise
parses name, size, and typeflag and computes
`next_offset = offset + 512 + 512 * ((size + 511) // 512)` (Python floor
division, `Int.fdiv`). -/
def parse_tar_header (data : List UInt8) (offset : Nat) : Option TarEntry × Int :=
  if data.length < offset + 512 then (none, -1)
  else
    let header := (data.drop offset).take 512
    if header = List.replicate 512 0 then (none, -1)
    else
      let name := pyRstrip (fun b => b = 0) (header.take 100)
      let size := size_field_value data offset
      let tfb := header.getD 156 0
      let typeflag : Char := if tfb = 0 then '0' else Char.ofNat tfb.toNat
      let content_blocks : Int := (size + 511).fdiv 512
      let next_offset : Int := (offset : Int) + 512 + content_blocks * 512
      (some { name := name, size := size, typeflag := typeflag,
              is_dir := typeflag = '5' || name.getLast? = some 0x2f },
       next_offset)

end streamtar

/- ------------------------------------------------------------------------
Concrete header blocks for the counterexample and witness evaluations of
streamtar.parse_tar_header
------------------------------------------------------------------------ -/

/-- A 512-byte header block whose typeflag is `'2'` (symlink) and whose size
field holds the octal digit `1`: name `f`, byte 124 = `'1'`, byte 156 = `'2'`. -/
def symlinkHeader : List UInt8 :=
  (((List.replicate 512 0).set 0 0x66).set 124 0x31).set 156 0x32

/-- A 512-byte header block whose typeflag is `'1'` (hardlink) and whose size
field holds the octal digit `1`: name `g`, byte 124 = `'1'`, byte 156 = `'1'`. -/
def hardlinkHeader : List UInt8 :=
  (((List.replicate 512 0).set 0 0x67).set 124 0x31).set 156 0x31

/-- The entry parsed from `symlinkHeader` at offset 0. -/
def symlinkEntry : streamtar.TarEntry :=
  { name := [0x66], size := 1, typeflag := '2', is_dir := false }

/- ------------------------------------------------------------------------
app/core/utils/tar_parser.py and app/core/api/layerslayer/parser.py are
imported by carve_service.py and fetcher.py but are absent from the source
tree; the decoder below is modelled from the spec (section 4.1 TarHeaderDecoder
and the TarEntry data model of section 3).
------------------------------------------------------------------------ -/

namespace coreTar

/-- Modelled from the spec: the `TarEntry` record of the absent
`app/core/utils/tar_parser.py` / `app/core/api/layerslayer/parser.py`
modules (spec section 3): name, size, typeflag, POSIX metadata preserved for
display (mode as textual `rwx` form, mtime as a formatted timestamp,
uid/gid as integers), linkname, and the derived `is_dir` / `is_symlink`
flags.  The field order matches `_dict_to_tar_entry` in
`app/modules/carve/src/api/layerslayer/fetcher.py`. -/
structure TarEntry where
  name : List Char
  size : Nat
  typeflag : Char
  is_dir : Bool
  mode : List Char
  uid : Nat
  gid : Nat
  mtime : List Char
  linkname : List Char
  is_symlink : Bool
deriving DecidableEq

/-- Modelled from the spec: "integers decoded from octal ASCII,
whitespace/null-trimmed; decode failure => treat as zero" (spec section 4.1). -/
def octField (l : List UInt8) : Nat :=
  let t := pyStrip (fun b => pyIsSpaceByte b || b = 0) l
  if !t.isEmpty && t.all isOctDigit then
    t.foldl (fun acc c => acc * 8 + (c.toNat - 0x30)) 0
  else 0

/-- Header name/linkname bytes decoded to characters.  The decode is modelled
byte-for-byte (codepoint = byte value); it agrees with the source's UTF-8
decode on ASCII names, and no claim depends on non-ASCII names. -/
def bytesToChars (l : List UInt8) : List Char :=
  l.map (fun b => Char.ofNat b.toNat)

/-- One `rwx` permission triple from the low three bits of `n`. -/
def rwxTriple (n : Nat) : List Char :=
  [if n / 4 % 2 = 1 then 'r' else '-',
   if n / 2 % 2 = 1 then 'w' else '-',
   if n % 2 = 1 then 'x' else '-']

/-- Modelled from the spec: the ten-character `drwxrwxrwx` textual mode string
synthesized from typeflag plus numeric mode bits (spec section 4.1). -/
def formatMode (typeflag : Char) (mode : Nat) : List Char :=
  (if typeflag = '5' then 'd' else if typeflag = '2' then 'l' else '-') ::
    (rwxTriple (mode / 64 % 8) ++ rwxTriple (mode / 8 % 8) ++ rwxTriple (mode % 8))

/-- Modelled from the spec: `decode(buffer, offset)` of the absent tar header
decoder (spec section 4.1).  Requires 512 bytes at `offset`; an all-zero
block is end-of-archive; name/linkname are NUL-trimmed; integers are octal
ASCII with decode failure treated as zero; directories (`'5'`), symlinks
(`'2'`), and hardlinks (`'1'`) have `size == 0` (spec section 3 invariant)
and hence occupy zero content blocks;
`next_offset = offset + 512 + round_up(size, 512)`. -/
def parse_tar_header (data : List UInt8) (offset : Nat) : Option TarEntry × Int :=
  if data.length < offset + 512 then (none, -1)
  else
    let header := (data.drop offset).take 512
    if header = List.replicate 512 0 then (none, -1)
    else
      let name := bytesToChars (pyRstrip (fun b => b = 0) (header.take 100))
      let modeN := octField ((header.drop 100).take 8)
      let uid := octField ((header.drop 108).take 8)
      let gid := octField ((header.drop 116).take 8)
      let sizeRaw := octField ((header.drop 124).take 12)
      let mtimeN := octField ((header.drop 136).take 12)
      let tfb := header.getD 156 0
      let typeflag : Char := if tfb = 0 then '0' else Char.ofNat tfb.toNat
      let linkname := bytesToChars (pyRstrip (fun b => b = 0) ((header.drop 157).take 100))
      let size := if typeflag = '1' || typeflag = '2' || typeflag = '5' then 0 else sizeRaw
      let next_offset : Int := (offset : Int) + 512 + ((size + 511) / 512 : Nat) * 512
      (some { name := name, size := size, typeflag := typeflag,
              is_dir := typeflag = '5' || name.getLast? = some '/',
              mode := formatMode typeflag modeN, uid := uid, gid := gid,
              mtime := (Nat.repr mtimeN).data, linkname := linkname,
              is_symlink := typeflag = '2' },
       next_offset)

end coreTar

/- ------------------------------------------------------------------------
TarScanner from app/core/api/carve_service.py
------------------------------------------------------------------------ -/

/-- `TarScanner._normalize_path`: strip surrounding whitespace, then one
leading `./`, then one leading `/`. -/
def _normalize_path (path : List Char) : List Char :=
  let p := pyStrip pyIsSpaceChar path
  let p := if ['.', '/'].isPrefixOf p then p.drop 2 else p
  if ['/'].isPrefixOf p then p.drop 1 else p

/-- State of a `TarScanner`: the normalized target plus the scan cursor. -/
structure TarScanner where
  target_path : List Char
  entries_scanned : Nat
  current_offset : Nat
deriving DecidableEq

/-- `TarScanner.__init__(target_path)`. -/
def TarScanner.init (target_path : List Char) : TarScanner :=
  { target_path := _normalize_path target_path, entries_scanned := 0, current_offset := 0 }

/-- `TarScanner._matches(entry_name)`. -/
def TarScanner._matches (s : TarScanner) (entry_name : List Char) : Bool :=
  _normalize_path entry_name == s.target_path

/-- `ScanResult` from carve_service.py. -/
structure ScanResult where
  found : Bool
  entry : Option coreTar.TarEntry := none
  content_offset : Nat := 0
  content_size : Nat := 0
  entries_scanned : Nat := 0
deriving DecidableEq

/-- The `while` loop of `TarScanner.scan`, with explicit fuel.  Each iteration
either returns or advances `current_offset` by at least 512 bytes, so
`data.length / 512 + 1` fuel (supplied by `TarScanner.scan`) is never
exhausted; the fuel only makes the recursion structural. -/
def scanLoop (data : List UInt8) : Nat → TarScanner → TarScanner × ScanResult
  | 0, s => (s, { found := false, entries_scanned := s.entries_scanned })
  | fuel + 1, s =>
    if s.current_offset + 512 ≤ data.length then
      match coreTar.parse_tar_header data s.current_offset with
      | (none, _) => (s, { found := false, entries_scanned := s.entries_scanned })
      | (some entry, next_offset) =>
        let s1 : TarScanner := { s with entries_scanned := s.entries_scanned + 1 }
        if s1._matches entry.name then
          (s1, { found := true, entry := some entry,
                 content_offset := s1.current_offset + 512,
                 content_size := entry.size,
                 entries_scanned := s1.entries_scanned })
        else if next_offset ≤ (s1.current_offset : Int) then
          (s1, { found := false, entries_scanned := s1.entries_scanned })
        else
          scanLoop data fuel { s1 with current_offset := next_offset.toNat }
    else (s, { found := false, entries_scanned := s.entries_scanned })

/-- `TarScanner.scan(data)`: scan the buffer for the target, resuming from
`current_offset`; returns the updated scanner and the scan result. -/
def TarScanner.scan (s : TarScanner) (data : List UInt8) : TarScanner × ScanResult :=
  scanLoop data (data.length / 512 + 1) s

/- ------------------------------------------------------------------------
IncrementalBlobReader and IncrementalGzipDecompressor from
app/core/api/carve_service.py.  The HTTP transport is embedded as explicit
response data; zlib is embedded as an abstract state-transition oracle.
------------------------------------------------------------------------ -/

/-- What one `_session.get` of a blob range produces, as seen by
`fetch_chunk`: either a `requests.RequestException` (connection failure,
timeout, ...) or an HTTP response with a status code, an optional total size
parsed from `Content-Range`, and the body bytes that `resp.raw.read` would
deliver. -/
inductive FetchResponse where
  | transportError
  | http (status : Nat) (contentRangeTotal : Option Nat) (body : List UInt8)
deriving DecidableEq

/-- Mutable state of `IncrementalBlobReader` (the url/token fields are
constant strings that never influence control flow and are omitted). -/
structure IncrementalBlobReader where
  chunk_size : Nat
  current_offset : Nat
  bytes_downloaded : Nat
  total_size : Nat
  exhausted : Bool
deriving DecidableEq

/-- `IncrementalBlobReader.__init__`. -/
def IncrementalBlobReader.init (chunk_size : Nat) : IncrementalBlobReader :=
  { chunk_size := chunk_size, current_offset := 0, bytes_downloaded := 0,
    total_size := 0, exhausted := false }

/-- `IncrementalBlobReader.fetch_chunk`, given the response the transport
would produce for this request.  Returns the updated reader and the bytes
obtained.  `raise_for_status` raises for 4xx/5xx statuses; `resp.raw.read(n)`
returns at most `chunk_size` bytes of the body. -/
def IncrementalBlobReader.fetch_chunk (r : IncrementalBlobReader)
    (resp : FetchResponse) : IncrementalBlobReader × List UInt8 :=
  if r.exhausted then (r, [])
  else
    match resp with
    | .transportError => ({ r with exhausted := true }, [])
    | .http status crTotal body =>
      if status = 416 then ({ r with exhausted := true }, [])
      else if 400 ≤ status ∧ status < 600 then ({ r with exhausted := true }, [])
      else
        let total := crTotal.getD r.total_size
        let data := body.take r.chunk_size
        if data.isEmpty then ({ r with total_size := total, exhausted := true }, [])
        else
          let newOffset := r.current_offset + data.length
          ({ r with total_size := total,
                    bytes_downloaded := r.bytes_downloaded + data.length,
                    current_offset := newOffset,
                    exhausted := total != 0 && total ≤ newOffset }, data)

/-- State of `IncrementalGzipDecompressor`: the zlib stream state is abstract
(`ZS`), the rolling buffer, the decompressed-byte counter, and the error
field. -/
structure IncrementalGzipDecompressor (ZS : Type) where
  zstate : ZS
  buffer : List UInt8
  bytes_decompressed : Nat
  error : Option (List Char)

/-- An abstract model of `zlib.decompressobj().decompress`: from a stream
state and a compressed chunk, either the new stream state with the newly
decompressed bytes, or a `zlib.error` message. -/
def ZlibOracle (ZS : Type) : Type :=
  ZS → List UInt8 → Except (List Char) (ZS × List UInt8)

/-- `IncrementalGzipDecompressor.__init__` with initial zlib state `z0`. -/
def IncrementalGzipDecompressor.init {ZS : Type} (z0 : ZS) :
    IncrementalGzipDecompressor ZS :=
  { zstate := z0, buffer := [], bytes_decompressed := 0, error := none }

/-- `IncrementalGzipDecompressor.feed(compressed_data)`: empty input returns
empty at once; otherwise the oracle either extends the buffer and the
counter or sets the error field. -/
def IncrementalGzipDecompressor.feed {ZS : Type} (oracle : ZlibOracle ZS)
    (d : IncrementalGzipDecompressor ZS) (compressed_data : List UInt8) :
    IncrementalGzipDecompressor ZS × List UInt8 :=
  if compressed_data.isEmpty then (d, [])
  else
    match oracle d.zstate compressed_data with
    | .ok (z', out) =>
      ({ d with zstate := z', buffer := d.buffer ++ out,
                bytes_decompressed := d.bytes_decompressed + out.length }, out)
    | .error e => ({ d with error := some e }, [])

/-- `IncrementalGzipDecompressor.get_buffer()`. -/
def IncrementalGzipDecompressor.get_buffer {ZS : Type}
    (d : IncrementalGzipDecompressor ZS) : List UInt8 :=
  d.buffer

/- ------------------------------------------------------------------------
carve_file from app/core/api/carve_service.py
------------------------------------------------------------------------ -/

/-- `LayerInfo` from carve_service.py. -/
structure LayerInfo where
  digest : String
  size : Nat
  media_type : String
deriving DecidableEq

/-- `CarveResult` from carve_service.py, extended with observation fields
(`savedContent`, `scanRes`, `finalBuffer`) recording the bytes written by
`_extract_and_save`, the scan result that located the target, and the
decompressed buffer at return time, so that theorems can speak about the
saved content.  The wall-clock `elapsed_seconds` field is not modelled. -/
structure CarveResult where
  success : Bool
  saved_path : Option (List Char) := none
  error : Option (List Char) := none
  bytes_downloaded : Nat := 0
  layer_size : Nat := 0
  savedContent : Option (List UInt8) := none
  scanRes : Option ScanResult := none
  finalBuffer : Option (List UInt8) := none

/-- `_extract_and_save(data, content_offset, content_size, ...)`: the byte
slice `data[content_offset : content_offset + content_size]` that the
function writes to disk.  The output-path computation and the filesystem
write are out of the modelled core (spec section 1). -/
def _extract_and_save (data : List UInt8) (content_offset content_size : Nat) :
    List UInt8 :=
  (data.drop content_offset).take content_size

/-- The inner `while` of `carve_file`: after a match, keep fetching chunks
purely to grow the decompressed buffer until `bytes_needed` bytes are
available or the reader exhausts.  Responses beyond the supplied list are
transport errors (which exhaust the reader). -/
def fetchContentLoop {ZS : Type} (oracle : ZlibOracle ZS) (bytes_needed : Nat) :
    List FetchResponse → IncrementalBlobReader → IncrementalGzipDecompressor ZS →
    IncrementalBlobReader × IncrementalGzipDecompressor ZS
  | env, r, d =>
    if d.buffer.length < bytes_needed && !r.exhausted then
      match env with
      | [] => ((r.fetch_chunk .transportError).1, d)
      | resp :: env' =>
        let fc := r.fetch_chunk resp
        if fc.2.isEmpty then (fc.1, d)
        else
          let fd := IncrementalGzipDecompressor.feed oracle d fc.2
          fetchContentLoop oracle bytes_needed env' fc.1 fd.1
    else (r, d)

/-- The per-layer streaming loop of `carve_file` (`while not reader.exhausted`):
fetch a chunk, check the gzip magic on the first chunk, feed the inflater,
scan, and on a match fetch the remaining content and return a `CarveResult`;
`none` means the loop broke and `carve_file` moves to the next layer. -/
def carveLoop {ZS : Type} (oracle : ZlibOracle ZS) (layer_size : Nat)
    (target_path : List Char) :
    List FetchResponse → TarScanner → IncrementalBlobReader →
    IncrementalGzipDecompressor ZS → Nat → Option CarveResult
  | env, s, r, d, chunks_fetched =>
    if r.exhausted then none
    else
      match env with
      | [] => none
      | resp :: env' =>
        let fc := r.fetch_chunk resp
        if fc.2.isEmpty then none
        else
          let chunks1 := chunks_fetched + 1
          if chunks1 = 1 ∧ (fc.2.length < 2 ∨ fc.2.take 2 ≠ [0x1f, 0x8b]) then none
          else
            let fd := IncrementalGzipDecompressor.feed oracle d fc.2
            if fd.1.error.isSome then none
            else
              let sr := fd.1.buffer
              let scanned := TarScanner.scan s sr
              if scanned.2.found then
                let bytes_needed := scanned.2.content_offset + scanned.2.content_size
                let grown := fetchContentLoop oracle bytes_needed env' fc.1 fd.1
                let buffer := grown.2.buffer
                if bytes_needed ≤ buffer.length then
                  some { success := true,
                         saved_path := some (target_path.dropWhile (fun c => c = '/')),
                         bytes_downloaded := grown.1.bytes_downloaded,
                         layer_size := layer_size,
                         savedContent := some
                           (_extract_and_save buffer scanned.2.content_offset
                             scanned.2.content_size),
                         scanRes := some scanned.2,
                         finalBuffer := some buffer }
                else
                  some { success := false,
                         error := some ("Found file but could not get full content".data),
                         bytes_downloaded := grown.1.bytes_downloaded,
                         layer_size := layer_size,
                         scanRes := some scanned.2,
                         finalBuffer := some buffer }
              else carveLoop oracle layer_size target_path env' scanned.1 fc.1 fd.1 chunks1

/-- The `for layer in layers` loop of `carve_file`: run the streaming loop on
each layer (fresh reader, inflater, and scanner per layer) until one returns
a result; otherwise report the file as not found. -/
def carveLayers {ZS : Type} (oracle : ZlibOracle ZS) (z0 : ZS)
    (target_path : List Char) (chunk_size : Nat) :
    List (LayerInfo × List FetchResponse) → CarveResult
  | [] => { success := false, error := some ("File not found".data) }
  | (layer, env) :: rest =>
    match carveLoop oracle layer.size target_path env (TarScanner.init target_path)
        (IncrementalBlobReader.init chunk_size) (IncrementalGzipDecompressor.init z0) 0 with
    | some result => result
    | none => carveLayers oracle z0 target_path chunk_size rest

/-- `carve_file` from carve_service.py.  Authentication and manifest fetching
are network effects, embedded as inputs: `token` is what `_fetch_pull_token`
returned (Python treats `None` and the empty string as failure), and `layers`
is the manifest's layer list, each with the responses its blob fetches
produce. -/
def carve_file {ZS : Type} (oracle : ZlibOracle ZS) (z0 : ZS)
    (token : Option (List Char)) (layers : List (LayerInfo × List FetchResponse))
    (target_path : List Char) (chunk_size : Nat) : CarveResult :=
  if (token.getD []).isEmpty then
    { success := false, error := some ("Failed to get authentication token".data) }
  else if layers.isEmpty then
    { success := false, error := some ("No layers found in manifest".data) }
  else carveLayers oracle z0 target_path chunk_size layers

/- ------------------------------------------------------------------------
peek_layer_blob_partial from
app/modules/carve/src/api/layerslayer/fetcher.py
------------------------------------------------------------------------ -/

/-- What the HTTP fetch of the peek (range request, optional 401 retry,
`raise_for_status`, `resp.raw.read(initial_bytes)`) produces: either a
`requests.RequestException` message or the compressed prefix bytes read. -/
inductive FetchOutcome where
  | failure (msg : List Char)
  | success (body : List UInt8)

/-- `LayerPeekResult` from fetcher.py.  The Python field `partial` is a Lean
keyword and is rendered `isPartial`. -/
structure LayerPeekResult where
  digest : String
  isPartial : Bool
  bytes_downloaded : Nat
  bytes_decompressed : Nat
  entries_found : Nat
  entries : List coreTar.TarEntry
  error : Option (List Char) := none

/-- The tar-header collection loop of `peek_layer_blob_partial`, with explicit
fuel.  Each iteration advances `offset` by at least 512 bytes, so the
`decompressed.length / 512 + 1` fuel supplied by the caller is never
exhausted; the fuel only makes the recursion structural. -/
def peekParseLoop (decompressed : List UInt8) : Nat → Nat → List coreTar.TarEntry
  | _, 0 => []
  | offset, fuel + 1 =>
    if offset + 512 ≤ decompressed.length then
      match coreTar.parse_tar_header decompressed offset with
      | (none, _) => []
      | (some entry, next_offset) =>
        if next_offset ≤ (offset : Int) ∨ (decompressed.length : Int) < next_offset then
          [entry]
        else entry :: peekParseLoop decompressed next_offset.toNat fuel
    else []

/-- `peek_layer_blob_partial` from fetcher.py: given the fetch outcome and the
single `decompressor.decompress(compressed_data)` call (an `Except`, since
zlib may raise), validate the gzip magic, decompress, require at least 512
decompressed bytes, and collect tar entries. -/
def peek_layer_blob_partial (digest : String) (fetch : FetchOutcome)
    (inflate : List UInt8 → Except (List Char) (List UInt8)) : LayerPeekResult :=
  match fetch with
  | .failure e =>
    { digest := digest, isPartial := true, bytes_downloaded := 0,
      bytes_decompressed := 0, entries_found := 0, entries := [], error := some e }
  | .success compressed_data =>
    if compressed_data.length < 2 ∨ compressed_data.take 2 ≠ [0x1f, 0x8b] then
      { digest := digest, isPartial := true,
        bytes_downloaded := compressed_data.length, bytes_decompressed := 0,
        entries_found := 0, entries := [],
        error := some ("Not a gzip file (missing magic bytes)".data) }
    else
      match inflate compressed_data with
      | .error e =>
        { digest := digest, isPartial := true,
          bytes_downloaded := compressed_data.length, bytes_decompressed := 0,
          entries_found := 0, entries := [],
          error := some ("Decompression error: ".data ++ e) }
      | .ok decompressed =>
        if decompressed.length < 512 then
          { digest := digest, isPartial := true,
            bytes_downloaded := compressed_data.length,
            bytes_decompressed := decompressed.length,
            entries_found := 0, entries := [],
            error := some ("Not enough decompressed data for tar header".data) }
        else
          let entries := peekParseLoop decompressed 0 (decompressed.length / 512 + 1)
          { digest := digest, isPartial := true,
            bytes_downloaded := compressed_data.length,
            bytes_decompressed := decompressed.length,
            entries_found := entries.length, entries := entries, error := none }

/- ------------------------------------------------------------------------
Database layer-peek cache from app/core/database.py, and the cache round
trip of fetcher.py
------------------------------------------------------------------------ -/

/-- The dictionary produced by `TarEntry.to_dict` and consumed by
`_dict_to_tar_entry` (fetcher.py): one key per `TarEntry` field.  JSON
serialization of these flat records of strings, integers, and booleans
round-trips exactly, so the stored `entries_json` text is modelled as the
list of these records. -/
structure TarEntryDict where
  name : List Char
  size : Nat
  typeflag : Char
  is_dir : Bool
  mode : List Char
  uid : Nat
  gid : Nat
  mtime : List Char
  linkname : List Char
  is_symlink : Bool
deriving DecidableEq

/-- Modelled from the spec: `TarEntry.to_dict()` of the absent parser module —
the serialized record of all ten entry fields, keyed as read back by
`_dict_to_tar_entry`. -/
def coreTar.TarEntry.to_dict (e : coreTar.TarEntry) : TarEntryDict :=
  { name := e.name, size := e.size, typeflag := e.typeflag, is_dir := e.is_dir,
    mode := e.mode, uid := e.uid, gid := e.gid, mtime := e.mtime,
    linkname := e.linkname, is_symlink := e.is_symlink }

/-- `_dict_to_tar_entry(d)` from fetcher.py. -/
def _dict_to_tar_entry (d : TarEntryDict) : coreTar.TarEntry :=
  { name := d.name, size := d.size, typeflag := d.typeflag, is_dir := d.is_dir,
    mode := d.mode, uid := d.uid, gid := d.gid, mtime := d.mtime,
    linkname := d.linkname, is_symlink := d.is_symlink }

/-- One row of the `layer_peek_cache` table (`digest` is declared UNIQUE; the
`id` and `fetched_at` columns never influence the modelled queries).  The
column `namespace` is a Lean keyword and is rendered `namespaceCol`. -/
structure LayerPeekCacheRow where
  digest : String
  namespaceCol : String
  repo : String
  bytes_downloaded : Nat
  bytes_decompressed : Nat
  entries_count : Nat
  entries_json : List TarEntryDict
deriving DecidableEq

/-- `Database.save_layer_peek`: `INSERT OR REPLACE` keyed by the UNIQUE
`digest` column — any existing row with this digest is replaced. -/
def save_layer_peek (cache : List LayerPeekCacheRow) (digest ns repo : String)
    (result : LayerPeekResult) : List LayerPeekCacheRow :=
  cache.filter (fun row => row.digest != digest) ++
    [{ digest := digest, namespaceCol := ns, repo := repo,
       bytes_downloaded := result.bytes_downloaded,
       bytes_decompressed := result.bytes_decompressed,
       entries_count := result.entries_found,
       entries_json := result.entries.map coreTar.TarEntry.to_dict }]

/-- The dictionary returned by `Database.get_cached_layer_peek`. -/
structure CachedLayerPeek where
  digest : String
  bytes_downloaded : Nat
  bytes_decompressed : Nat
  entries_count : Nat
  entries : List TarEntryDict
deriving DecidableEq

/-- `Database.get_cached_layer_peek(digest)`. -/
def get_cached_layer_peek (cache : List LayerPeekCacheRow) (digest : String) :
    Option CachedLayerPeek :=
  (cache.find? (fun row => row.digest == digest)).map (fun row =>
    { digest := digest, bytes_downloaded := row.bytes_downloaded,
      bytes_decompressed := row.bytes_decompressed,
      entries_count := row.entries_count, entries := row.entries_json })

/-- `Database.layer_peek_cached(digest)`. -/
def layer_peek_cached (cache : List LayerPeekCacheRow) (digest : String) : Bool :=
  (cache.find? (fun row => row.digest == digest)).isSome

/-- `Database.all_layers_cached(layer_digests)`: an empty list returns True;
otherwise `SELECT COUNT(*) ... WHERE digest IN (...)` counts the cache rows
whose digest occurs in the list, and the result is that count compared with
the length of the list. -/
def all_layers_cached (cache : List LayerPeekCacheRow)
    (layer_digests : List String) : Bool :=
  if layer_digests.isEmpty then true
  else (cache.filter (fun row => layer_digests.contains row.digest)).length
        == layer_digests.length

/- ------------------------------------------------------------------------
Concrete inputs for the failing-input and witness evaluations of the cache
and of carve_file
------------------------------------------------------------------------ -/

/-- A cache holding exactly one row, for the digest `sha256:a`. -/
def c10cache : List LayerPeekCacheRow :=
  [{ digest := "sha256:a", namespaceCol := "library", repo := "nginx",
     bytes_downloaded := 8192, bytes_decompressed := 65536,
     entries_count := 0, entries_json := [] }]

/-- A concrete tar header block: name `f`, size field octal `3`, typeflag
`'0'` (regular file). -/
def c1header : List UInt8 :=
  (((List.replicate 512 0).set 0 0x66).set 124 0x33).set 156 0x30

/-- The decompressed layer prefix for the C1 witness: one header block
followed by the three content bytes `abc`. -/
def c1tar : List UInt8 := c1header ++ [0x61, 0x62, 0x63]

/-- An inflater oracle that decompresses any chunk to `c1tar`. -/
def c1oracle : ZlibOracle Unit := fun _ _ => .ok ((), c1tar)

/-- One layer whose blob fetch yields a single gzip-magic chunk. -/
def c1layers : List (LayerInfo × List FetchResponse) :=
  [({ digest := "sha256:c1", size := 999, media_type := "application/gzip" },
    [FetchResponse.http 206 (some 999) [0x1f, 0x8b]])]

/- ------------------------------------------------------------------------
Theorems settling the claims, with their supporting lemmas, counterexample
evaluations, and witnesses
------------------------------------------------------------------------ -/

/- ------------------------------------------------------------------------
Claims C2 and C3: the next-offset formula and the size invariant of
streamtar.parse_tar_header
------------------------------------------------------------------------ -/

/-- `(a + 511) // 512` (Python floor division) is ceiling division by 512. -/
lemma fdiv_add_511_eq_ceil (a : ℤ) : (a + 511).fdiv 512 = ⌈(a : ℚ) / 512⌉ := by
  rw [Int.fdiv_eq_ediv _ (by norm_num : (0:ℤ) ≤ 512)]
  symm
  rw [Int.ceil_eq_iff]
  have hmod := Int.emod_add_ediv (a + 511) 512
  have h0 : 0 ≤ (a + 511) % 512 := Int.emod_nonneg _ (by norm_num)
  have h1 : (a + 511) % 512 < 512 := Int.emod_lt_of_pos _ (by norm_num)
  have hmq : (((a + 511) % 512 : ℤ) : ℚ) + 512 * (((a + 511) / 512 : ℤ) : ℚ)
      = (a : ℚ) + 511 := by exact_mod_cast congrArg (fun z : ℤ => (z : ℚ)) hmod
  have h511 : (a + 511) % 512 ≤ 511 := by omega
  have h0q : (0:ℚ) ≤ (((a + 511) % 512 : ℤ) : ℚ) := by exact_mod_cast h0
  have h1q : (((a + 511) % 512 : ℤ) : ℚ) ≤ 511 := by exact_mod_cast h511
  constructor
  · rw [lt_div_iff₀ (by norm_num : (0:ℚ) < 512)]
    linarith
  · rw [div_le_iff₀ (by norm_num : (0:ℚ) < 512)]
    linarith

/-- C2 (amended): whenever `parse_tar_header` returns an entry,
`next_offset = offset + 512 + 512 * ceil(size / 512)` where `size` is the
entry's decoded size; an entry occupies zero content blocks — so
`next_offset = offset + 512` — exactly when that decoded size is 0.  The
parser does not special-case directory/symlink/hardlink typeflags. -/
theorem streamtar_next_offset_eq (data : List UInt8) (offset : Nat)
    (e : streamtar.TarEntry) (n : Int)
    (h : streamtar.parse_tar_header data offset = (some e, n)) :
    n = (offset : Int) + 512 + 512 * ⌈(e.size : ℚ) / 512⌉ ∧
    (e.size = 0 → n = (offset : Int) + 512) := by
  by_cases h1 : data.length < offset + 512
  · simp [streamtar.parse_tar_header, h1] at h
  · by_cases h2 : (data.drop offset).take 512 = List.replicate 512 0
    · simp [streamtar.parse_tar_header, h1, h2] at h
    · simp only [streamtar.parse_tar_header, if_neg h1, if_neg h2, Prod.mk.injEq,
        Option.some.injEq] at h
      obtain ⟨he, hn⟩ := h
      subst he
      subst hn
      simp only []
      rw [← fdiv_add_511_eq_ceil]
      constructor
      · ring
      · intro hs
        rw [hs]
        norm_num [Int.fdiv]

/-- C3 (amended): every entry emitted by `parse_tar_header` carries exactly the
size decoded from its header's size field (0 when the field is empty after
NUL/whitespace trimming or fails to parse); the parser does not force
`size = 0` for directory, symlink, or hardlink typeflags, so such entries have
`size = 0` only when the field itself decodes to 0. -/
theorem streamtar_size_eq_field (data : List UInt8) (offset : Nat)
    (e : streamtar.TarEntry) (n : Int)
    (h : streamtar.parse_tar_header data offset = (some e, n)) :
    e.size = streamtar.size_field_value data offset := by
  by_cases h1 : data.length < offset + 512
  · simp [streamtar.parse_tar_header, h1] at h
  · by_cases h2 : (data.drop offset).take 512 = List.replicate 512 0
    · simp [streamtar.parse_tar_header, h1, h2] at h
    · simp only [streamtar.parse_tar_header, if_neg h1, if_neg h2, Prod.mk.injEq,
        Option.some.injEq] at h
      obtain ⟨he, hn⟩ := h
      subst he
      rfl

/-- C2 counterexample: a symlink-typeflag header whose size field decodes to 1
yields `next_offset = 1024`, not `offset + 512 = 512` — refuting the claim that
directory/symlink/hardlink entries always occupy zero content blocks. -/
theorem streamtar_next_offset_symlink_counterexample :
    ((streamtar.parse_tar_header symlinkHeader 0).1.map
        (fun e => e.typeflag)) = some '2' ∧
    (streamtar.parse_tar_header symlinkHeader 0).2 = 1024 ∧
    (1024 : Int) ≠ (0 : Int) + 512 := by
  refine ⟨?_, ?_, by decide⟩ <;> decide

/-- Witness for the amended C2 theorem at a concrete input. -/
theorem streamtar_next_offset_eq_witness :
    streamtar.parse_tar_header symlinkHeader 0 = (some symlinkEntry, 1024) ∧
    ((1024 : Int) = ((0 : Nat) : Int) + 512 + 512 * ⌈(symlinkEntry.size : ℚ) / 512⌉ ∧
     (symlinkEntry.size = 0 → (1024 : Int) = ((0 : Nat) : Int) + 512)) :=
  ⟨by decide, streamtar_next_offset_eq symlinkHeader 0 symlinkEntry 1024 (by decide)⟩

/-- C3 counterexample: a hardlink-typeflag header whose size field holds octal
`1` is emitted with `size = 1 ≠ 0`, refuting the claim that hardlink (`'1'`),
symlink (`'2'`), and directory (`'5'`) entries always have `size == 0`. -/
theorem streamtar_size_hardlink_counterexample :
    ((streamtar.parse_tar_header hardlinkHeader 0).1.map
        (fun e => (e.typeflag, e.size))) = some ('1', (1 : Int)) ∧
    (1 : Int) ≠ 0 := by
  refine ⟨?_, by decide⟩
  decide

/-- Witness for the amended C3 theorem at a concrete input. -/
theorem streamtar_size_eq_field_witness :
    streamtar.parse_tar_header hardlinkHeader 0 =
      (some { name := [0x67], size := 1, typeflag := '1', is_dir := false }, 1024) ∧
    ({ name := [0x67], size := 1, typeflag := '1',
       is_dir := false : streamtar.TarEntry }.size =
      streamtar.size_field_value hardlinkHeader 0) :=
  ⟨by decide,
   streamtar_size_eq_field hardlinkHeader 0 _ 1024 (by decide)⟩

/- ------------------------------------------------------------------------
Claims C5, C8, C9: reader and inflater behaviour
------------------------------------------------------------------------ -/

/-- C5: on a non-exhausted reader, an HTTP 416 response or a transport error
marks the reader exhausted and the call returns the empty byte string. -/
theorem fetch_chunk_on_416_or_transport_error (r : IncrementalBlobReader)
    (resp : FetchResponse) (hne : r.exhausted = false)
    (h : resp = .transportError ∨ ∃ t b, resp = .http 416 t b) :
    (r.fetch_chunk resp).1.exhausted = true ∧ (r.fetch_chunk resp).2 = [] := by
  rcases h with h | ⟨t, b, h⟩ <;> subst h <;>
    simp [IncrementalBlobReader.fetch_chunk, hne]

/-- Witness for C5: a fresh reader hit by a transport error. -/
theorem fetch_chunk_on_416_or_transport_error_witness :
    (IncrementalBlobReader.init 65536).exhausted = false ∧
    (((IncrementalBlobReader.init 65536).fetch_chunk .transportError).1.exhausted = true ∧
     ((IncrementalBlobReader.init 65536).fetch_chunk .transportError).2 = []) :=
  ⟨rfl, fetch_chunk_on_416_or_transport_error _ _ rfl (Or.inl rfl)⟩

/-- C8: once the reader is exhausted, `fetch_chunk` returns the empty byte
string and leaves the whole reader state unchanged, whatever the transport
would have produced (no request is issued: the response is ignored). -/
theorem fetch_chunk_exhausted_frame (r : IncrementalBlobReader)
    (resp : FetchResponse) (h : r.exhausted = true) :
    r.fetch_chunk resp = (r, []) := by
  simp [IncrementalBlobReader.fetch_chunk, h]

/-- Witness for C8: an exhausted reader ignores a fresh 200 response. -/
theorem fetch_chunk_exhausted_frame_witness :
    ({ chunk_size := 4, current_offset := 9, bytes_downloaded := 9,
       total_size := 10, exhausted := true } : IncrementalBlobReader).exhausted = true ∧
    ({ chunk_size := 4, current_offset := 9, bytes_downloaded := 9,
       total_size := 10, exhausted := true } : IncrementalBlobReader).fetch_chunk
        (.http 200 (some 10) [1, 2]) =
      ({ chunk_size := 4, current_offset := 9, bytes_downloaded := 9,
         total_size := 10, exhausted := true }, []) :=
  ⟨rfl, fetch_chunk_exhausted_frame _ _ rfl⟩

/-- C9: feeding the empty byte string returns the empty byte string and leaves
the decompressor (buffer, counter, error, zlib state) unchanged, in every
state. -/
theorem feed_empty_frame (ZS : Type) (oracle : ZlibOracle ZS)
    (d : IncrementalGzipDecompressor ZS) :
    IncrementalGzipDecompressor.feed oracle d [] = (d, []) := by
  simp [IncrementalGzipDecompressor.feed]

/- ------------------------------------------------------------------------
Claim C10: Database.all_layers_cached
------------------------------------------------------------------------ -/

/-- C10: `all_layers_cached` evaluated at the failing input.  Every digest of
the list `["sha256:a", "sha256:a"]` is present in the cache, yet the function
returns `false`: `COUNT(*)` counts matching rows (1, since `digest` is
UNIQUE), which is compared against the length of the list (2).  This
contradicts the claim (and the function's own docstring, "True if ALL are
cached"). -/
theorem all_layers_cached_duplicate_digest_bug :
    (∀ dg ∈ ["sha256:a", "sha256:a"], layer_peek_cached c10cache dg = true) ∧
    all_layers_cached c10cache ["sha256:a", "sha256:a"] = false := by
  decide

/- ------------------------------------------------------------------------
Claim C4: the layer-peek cache round trip
------------------------------------------------------------------------ -/

/-- Deserializing a serialized entry gives the entry back, field for field. -/
lemma dict_to_tar_entry_to_dict (e : coreTar.TarEntry) :
    _dict_to_tar_entry (coreTar.TarEntry.to_dict e) = e :=
  rfl

/-- C4: storing a `LayerPeekResult` with `save_layer_peek` and reading it back
with `get_cached_layer_peek` on the same digest, then converting each stored
record with `_dict_to_tar_entry`, reconstructs exactly the original `entries`
list — a cached peek returns the identical entries list as the originating
network peek. -/
theorem save_layer_peek_roundtrip (cache : List LayerPeekCacheRow)
    (digest ns repo : String) (result : LayerPeekResult) :
    (get_cached_layer_peek (save_layer_peek cache digest ns repo result) digest).map
      (fun c => c.entries.map _dict_to_tar_entry) = some result.entries := by
  unfold get_cached_layer_peek save_layer_peek
  rw [List.find?_append]
  have hnone : (cache.filter (fun row => row.digest != digest)).find?
      (fun row => row.digest == digest) = none := by
    rw [List.find?_eq_none]
    intro x hx
    have hmem := (List.mem_filter.mp hx).2
    simpa using hmem
  rw [hnone]
  simp only [Option.or_none, List.find?_cons, List.find?_nil, beq_self_eq_true,
    Option.map_some, List.map_map]
  have hid : (_dict_to_tar_entry ∘ coreTar.TarEntry.to_dict) = id :=
    funext fun e => dict_to_tar_entry_to_dict e
  simp [hid]

/- ------------------------------------------------------------------------
Claim C7: the insufficient-data boundary of the peek
------------------------------------------------------------------------ -/

/-- C7: when the HTTP fetch succeeds, the first two fetched bytes are the gzip
magic, and the decompressor raises no error, the peek result has a non-null
error together with an empty entries list exactly when fewer than 512
decompressed bytes are available; with at least 512 decompressed bytes the
error field is null. -/
theorem peek_insufficient_data_iff (digest : String)
    (inflate : List UInt8 → Except (List Char) (List UInt8))
    (compressed out : List UInt8)
    (hlen : 2 ≤ compressed.length) (hmagic : compressed.take 2 = [0x1f, 0x8b])
    (hok : inflate compressed = .ok out) :
    ((( peek_layer_blob_partial digest (.success compressed) inflate).error ≠ none ∧
      ( peek_layer_blob_partial digest (.success compressed) inflate).entries = []) ↔
        out.length < 512) ∧
    (512 ≤ out.length →
      ( peek_layer_blob_partial digest (.success compressed) inflate).error = none) := by
  have hcond : ¬(compressed.length < 2 ∨ compressed.take 2 ≠ [0x1f, 0x8b]) := by
    push_neg
    exact ⟨by omega, hmagic⟩
  simp only [ peek_layer_blob_partial, if_neg hcond, hok]
  by_cases h5 : out.length < 512
  · simp [h5]
  · simp [h5]

/-- Witness for C7: a two-byte gzip magic prefix whose inflation yields no
bytes — fewer than 512 decompressed bytes, so the result is an error with an
empty entries list. -/
theorem peek_insufficient_data_iff_witness :
    (2 ≤ ([0x1f, 0x8b] : List UInt8).length ∧
     ([0x1f, 0x8b] : List UInt8).take 2 = [0x1f, 0x8b] ∧
     (fun (_ : List UInt8) =>
        (Except.ok ([] : List UInt8) : Except (List Char) (List UInt8)))
       [0x1f, 0x8b] = .ok []) ∧
    (((( peek_layer_blob_partial "sha256:w"
          (.success [0x1f, 0x8b])
          (fun _ => Except.ok [])).error ≠ none ∧
       ( peek_layer_blob_partial "sha256:w"
          (.success [0x1f, 0x8b])
          (fun _ => Except.ok [])).entries = []) ↔
        ([] : List UInt8).length < 512) ∧
     (512 ≤ ([] : List UInt8).length →
       ( peek_layer_blob_partial "sha256:w"
          (.success [0x1f, 0x8b])
          (fun _ => Except.ok [])).error = none)) :=
  ⟨⟨by decide, by decide, rfl⟩,
   peek_insufficient_data_iff "sha256:w" (fun _ => Except.ok [])
     [0x1f, 0x8b] [] (by decide) (by decide) rfl⟩

/- ------------------------------------------------------------------------
Claim C6: path normalization in the TarScanner
------------------------------------------------------------------------ -/

/-- C6 counterexample: for the target `p = "./x"`, the scanner built from `p`
matches the entry name `"x"` but the scanner built from `"./" + p` does not —
normalization strips only one leading `./`, so prefixing the target with `./`
is not invariant, refuting the claim for every `p`. -/
theorem scanner_dot_slash_not_invariant :
    (TarScanner.init ['.', '/', 'x'])._matches ['x'] = true ∧
    (TarScanner.init ['.', '/', '.', '/', 'x'])._matches ['x'] = false := by
  decide

lemma dropWhile_eq_self_of_length {α : Type} (p : α → Bool) (l : List α)
    (h : (l.dropWhile p).length = l.length) : l.dropWhile p = l :=
  (List.dropWhile_sublist p).eq_of_length h

lemma pyLstrip_length_le {α : Type} (p : α → Bool) (l : List α) :
    (pyLstrip p l).length ≤ l.length :=
  (List.dropWhile_sublist p).length_le

lemma pyRstrip_length_le {α : Type} (p : α → Bool) (l : List α) :
    (pyRstrip p l).length ≤ l.length := by
  unfold pyRstrip
  simpa using (List.dropWhile_sublist (l := l.reverse) p).length_le

/-- A string unchanged by `strip` is unchanged by each side's strip. -/
lemma pyStrip_eq_self_parts {α : Type} (p : α → Bool) (l : List α)
    (h : pyStrip p l = l) : pyLstrip p l = l ∧ pyRstrip p l = l := by
  have hlen : (pyStrip p l).length = l.length := by rw [h]
  have h1 : (pyRstrip p (pyLstrip p l)).length ≤ (pyLstrip p l).length :=
    pyRstrip_length_le _ _
  have h2 : (pyLstrip p l).length ≤ l.length := pyLstrip_length_le _ _
  have hL : (pyLstrip p l).length = l.length := by
    unfold pyStrip at hlen
    omega
  have hLeq : pyLstrip p l = l := dropWhile_eq_self_of_length p l hL
  refine ⟨hLeq, ?_⟩
  have := h
  unfold pyStrip at this
  rwa [hLeq] at this

/-- `rstrip` fixes a one-element extension on the left. -/
lemma pyRstrip_cons_of_fixed (p : Char → Bool) (c : Char) (l : List Char)
    (hc : p c = false) (h : pyRstrip p l = l) : pyRstrip p (c :: l) = c :: l := by
  unfold pyRstrip at h ⊢
  have hrev : l.reverse.dropWhile p = l.reverse := by
    have := congrArg List.reverse h
    simpa using this
  rw [List.reverse_cons, List.dropWhile_append, hrev]
  rcases l.eq_nil_or_concat with rfl | ⟨l', a, rfl⟩
  · simp [List.dropWhile, hc]
  · have hne : ¬(l' ++ [a]).reverse.isEmpty := by simp
    rw [if_neg (by simp [hrev])]
    simp

/-- A path fixed by `_normalize_path` is whitespace-stripped and carries no
leading `./` or `/`. -/
lemma normalize_fixed_parts (p : List Char) (h : _normalize_path p = p) :
    pyStrip pyIsSpaceChar p = p ∧ ['.', '/'].isPrefixOf p = false ∧
      ['/'].isPrefixOf p = false := by
  unfold _normalize_path at h
  set q := pyStrip pyIsSpaceChar p with hq
  set q1 := if ['.', '/'].isPrefixOf q then q.drop 2 else q with hq1
  have hlen0 : q.length ≤ p.length := by
    rw [hq]
    unfold pyStrip
    exact le_trans (pyRstrip_length_le _ _) (pyLstrip_length_le _ _)
  have hlen1 : q1.length ≤ q.length := by
    rw [hq1]
    split <;> simp [List.length_drop]
  have hlen2 : (if ['/'].isPrefixOf q1 then q1.drop 1 else q1).length ≤ q1.length := by
    split <;> simp [List.length_drop]
  have hfull : (if ['/'].isPrefixOf q1 then q1.drop 1 else q1).length = p.length := by
    rw [h]
  have hq1len : q1.length = q.length := by omega
  have hqlen : q.length = p.length := by omega
  have hqeq : q = p := by
    rw [hq]
    have hsub : (pyStrip pyIsSpaceChar p).Sublist p := by
      unfold pyStrip pyRstrip pyLstrip
      have h1 : ((p.dropWhile pyIsSpaceChar).reverse.dropWhile pyIsSpaceChar).reverse.Sublist
          (p.dropWhile pyIsSpaceChar) := by
        have h2 := (List.dropWhile_sublist (l := (p.dropWhile pyIsSpaceChar).reverse)
          pyIsSpaceChar).reverse
        simpa using h2
      exact h1.trans (List.dropWhile_sublist _)
    exact hsub.eq_of_length (hq ▸ hqlen)
  have hpre1 : ['.', '/'].isPrefixOf q = false := by
    by_contra hcon
    have htrue : ['.', '/'].isPrefixOf q = true := by
      revert hcon
      cases ['.', '/'].isPrefixOf q <;> simp
    have : q1.length = q.length - 2 := by
      rw [hq1, if_pos htrue]
      simp
    have h2le : 2 ≤ q.length := by
      have := List.IsPrefix.length_le ( List.isPrefixOf_iff_prefix.mp htrue)
      simpa using this
    omega
  have hq1eq : q1 = q := by
    rw [hq1, hpre1]
    simp
  have hpre2 : ['/'].isPrefixOf q1 = false := by
    by_contra hcon
    have htrue : ['/'].isPrefixOf q1 = true := by
      revert hcon
      cases ['/'].isPrefixOf q1 <;> simp
    have : (if ['/'].isPrefixOf q1 then q1.drop 1 else q1).length = q1.length - 1 := by
      rw [if_pos htrue]
      simp
    have h1le : 1 ≤ q1.length := by
      have := List.IsPrefix.length_le ( List.isPrefixOf_iff_prefix.mp htrue)
      simpa using this
    omega
  refine ⟨hqeq, ?_, ?_⟩
  · rw [← hqeq]
    exact hpre1
  · rw [← hqeq, ← hq1eq]
    exact hpre2

/-- Normalizing `'./' + p` gives back a normalized `p`. -/
lemma normalize_dot_slash (p : List Char) (h : _normalize_path p = p) :
    _normalize_path ('.' :: '/' :: p) = p := by
  obtain ⟨hstrip, hpre1, hpre2⟩ := normalize_fixed_parts p h
  obtain ⟨hl, hr⟩ := pyStrip_eq_self_parts _ _ hstrip
  have hr2 : pyRstrip pyIsSpaceChar ('/' :: p) = '/' :: p :=
    pyRstrip_cons_of_fixed _ '/' p (by decide) hr
  have hr1 : pyRstrip pyIsSpaceChar ('.' :: '/' :: p) = '.' :: '/' :: p :=
    pyRstrip_cons_of_fixed _ '.' ('/' :: p) (by decide) hr2
  have hlstrip : pyLstrip pyIsSpaceChar ('.' :: '/' :: p) = '.' :: '/' :: p := by
    unfold pyLstrip
    rw [List.dropWhile_cons]
    simp [pyIsSpaceChar]
  have hstrip2 : pyStrip pyIsSpaceChar ('.' :: '/' :: p) = '.' :: '/' :: p := by
    unfold pyStrip
    rw [hlstrip, hr1]
  have hpref : ['.', '/'].isPrefixOf ('.' :: '/' :: p) = true := by
    simp [List.isPrefixOf]
  simp only [_normalize_path, hstrip2, hpref, if_true, List.drop_succ_cons,
    List.drop_zero]
  simp [hpre2]

/-- Normalizing `'/' + p` gives back a normalized `p`. -/
lemma normalize_slash (p : List Char) (h : _normalize_path p = p) :
    _normalize_path ('/' :: p) = p := by
  obtain ⟨hstrip, hpre1, hpre2⟩ := normalize_fixed_parts p h
  obtain ⟨hl, hr⟩ := pyStrip_eq_self_parts _ _ hstrip
  have hr2 : pyRstrip pyIsSpaceChar ('/' :: p) = '/' :: p :=
    pyRstrip_cons_of_fixed _ '/' p (by decide) hr
  have hlstrip : pyLstrip pyIsSpaceChar ('/' :: p) = '/' :: p := by
    unfold pyLstrip
    rw [List.dropWhile_cons]
    simp [pyIsSpaceChar]
  have hstrip2 : pyStrip pyIsSpaceChar ('/' :: p) = '/' :: p := by
    unfold pyStrip
    rw [hlstrip, hr2]
  have hpref : ['.', '/'].isPrefixOf ('/' :: p) = false := by
    simp [List.isPrefixOf]
  simp only [_normalize_path, hstrip2, hpref]
  simp [List.isPrefixOf]

/-- C6 (amended): for every already-normalized target `p` (no surrounding
whitespace, no leading `./` or `/`), the scanners built from `p`, `./` + `p`,
and `/` + `p` match exactly the same entry names, and matching is exact,
case-sensitive equality of normalized paths (strip whitespace, then one
leading `./`, then one leading `/`).  For non-normalized targets such as
`p = "./x"` the invariance fails (see the counterexample). -/
theorem scanner_match_normalized_invariance (p n : List Char)
    (h : _normalize_path p = p) :
    (TarScanner.init ('.' :: '/' :: p))._matches n = (TarScanner.init p)._matches n ∧
    (TarScanner.init ('/' :: p))._matches n = (TarScanner.init p)._matches n ∧
    (TarScanner.init p)._matches n = (_normalize_path n == _normalize_path p) := by
  have h1 := normalize_dot_slash p h
  have h2 := normalize_slash p h
  simp [TarScanner.init, TarScanner._matches, h1, h2, h]

/-- Witness for the amended C6 theorem: the normalized target `etc`, probed
with the entry name `/etc`. -/
theorem scanner_match_normalized_invariance_witness :
    _normalize_path ['e', 't', 'c'] = ['e', 't', 'c'] ∧
    ((TarScanner.init ('.' :: '/' :: ['e', 't', 'c']))._matches ['/', 'e', 't', 'c'] =
        (TarScanner.init ['e', 't', 'c'])._matches ['/', 'e', 't', 'c'] ∧
     (TarScanner.init ('/' :: ['e', 't', 'c']))._matches ['/', 'e', 't', 'c'] =
        (TarScanner.init ['e', 't', 'c'])._matches ['/', 'e', 't', 'c'] ∧
     (TarScanner.init ['e', 't', 'c'])._matches ['/', 'e', 't', 'c'] =
        (_normalize_path ['/', 'e', 't', 'c'] == _normalize_path ['e', 't', 'c'])) :=
  ⟨by decide, scanner_match_normalized_invariance ['e', 't', 'c'] ['/', 'e', 't', 'c']
    (by decide)⟩

/- ------------------------------------------------------------------------
Claim C1: a successful carve saves exactly the matched entry's size
------------------------------------------------------------------------ -/

/-- When a scan reports a match, the result carries the matched entry and its
size as the content size. -/
lemma scanLoop_found (data : List UInt8) :
    ∀ (fuel : Nat) (s s' : TarScanner) (res : ScanResult),
      scanLoop data fuel s = (s', res) → res.found = true →
      ∃ e, res.entry = some e ∧ res.content_size = e.size := by
  intro fuel
  induction fuel with
  | zero =>
    intro s s' res h hf
    simp only [scanLoop] at h
    injection h with h1 h2
    subst h2
    simp at hf
  | succ fuel ih =>
    intro s s' res h hf
    simp only [scanLoop] at h
    split at h
    · split at h
      · injection h with h1 h2
        subst h2
        simp at hf
      · split at h
        · injection h with h1 h2
          subst h2
          exact ⟨_, rfl, rfl⟩
        · split at h
          · injection h with h1 h2
            subst h2
            simp at hf
          · exact ih _ _ _ h hf
    · injection h with h1 h2
      subst h2
      simp at hf

/-- `TarScanner.scan` version of `scanLoop_found`. -/
lemma scan_found (s : TarScanner) (data : List UInt8)
    (h : (TarScanner.scan s data).2.found = true) :
    ∃ e, (TarScanner.scan s data).2.entry = some e ∧
      (TarScanner.scan s data).2.content_size = e.size :=
  scanLoop_found data (data.length / 512 + 1) s
    (TarScanner.scan s data).1 (TarScanner.scan s data).2 rfl h

/-- A successful `carveLoop` result records the matched scan, and the saved
content is the slice `buffer[content_offset : content_offset + content_size]`
of a buffer that holds at least `content_offset + content_size` bytes. -/
lemma carveLoop_success {ZS : Type} (oracle : ZlibOracle ZS) (layer_size : Nat)
    (target_path : List Char) :
    ∀ (env : List FetchResponse) (s : TarScanner) (r : IncrementalBlobReader)
      (d : IncrementalGzipDecompressor ZS) (k : Nat) (cr : CarveResult),
      carveLoop oracle layer_size target_path env s r d k = some cr →
      cr.success = true →
      ∃ sr e buf, cr.scanRes = some sr ∧ sr.entry = some e ∧
        sr.content_size = e.size ∧ cr.finalBuffer = some buf ∧
        sr.content_offset + sr.content_size ≤ buf.length ∧
        cr.savedContent = some (_extract_and_save buf sr.content_offset sr.content_size) := by
  intro env
  induction env with
  | nil =>
    intro s r d k cr h hs
    simp only [carveLoop] at h
    split at h
    · simp at h
    · simp at h
  | cons resp env' ih =>
    intro s r d k cr h hs
    simp only [carveLoop] at h
    split at h
    · simp at h
    · split at h
      · simp at h
      · split at h
        · simp at h
        · split at h
          · simp at h
          · split at h
            · split at h
              · injection h with h'
                subst h'
                obtain ⟨e, he, hsz⟩ := scan_found _ _ (by assumption)
                exact ⟨_, e, _, rfl, he, hsz, rfl, by assumption, rfl⟩
              · injection h with h'
                subst h'
                simp at hs
            · exact ih _ _ _ _ _ h hs

/-- The slice saved by `_extract_and_save` has length exactly `content_size`
whenever the buffer holds the full content range. -/
lemma extract_and_save_length (buf : List UInt8) (co cs : Nat)
    (h : co + cs ≤ buf.length) : (_extract_and_save buf co cs).length = cs := by
  unfold _extract_and_save
  rw [List.length_take, List.length_drop]
  omega

/-- `carveLayers` lift of `carveLoop_success`. -/
lemma carveLayers_success {ZS : Type} (oracle : ZlibOracle ZS) (z0 : ZS)
    (target_path : List Char) (chunk_size : Nat) :
    ∀ (layers : List (LayerInfo × List FetchResponse)) (cr : CarveResult),
      carveLayers oracle z0 target_path chunk_size layers = cr →
      cr.success = true →
      ∃ sr e buf, cr.scanRes = some sr ∧ sr.entry = some e ∧
        sr.content_size = e.size ∧ cr.finalBuffer = some buf ∧
        sr.content_offset + sr.content_size ≤ buf.length ∧
        cr.savedContent = some (_extract_and_save buf sr.content_offset sr.content_size) := by
  intro layers
  induction layers with
  | nil =>
    intro cr h hs
    simp only [carveLayers] at h
    subst h
    simp at hs
  | cons le rest ih =>
    intro cr h hs
    simp only [carveLayers] at h
    split at h
    · exact carveLoop_success oracle le.1.size target_path le.2 _ _ _ _ cr
        (by rw [← h]; assumption) hs
    · exact ih cr h hs

/-- C1: whenever `carve_file` returns `success = true`, it has verified that
the decompressed buffer holds at least `content_offset + content_size` bytes,
the saved bytes are exactly `buffer[content_offset : content_offset +
content_size]`, and their number equals the matched tar entry's decoded
`size` field. -/
theorem carve_file_success_saves_entry_size {ZS : Type} (oracle : ZlibOracle ZS)
    (z0 : ZS) (token : Option (List Char))
    (layers : List (LayerInfo × List FetchResponse)) (target_path : List Char)
    (chunk_size : Nat)
    (h : (carve_file oracle z0 token layers target_path chunk_size).success = true) :
    ∃ sr e buf,
      (carve_file oracle z0 token layers target_path chunk_size).scanRes = some sr ∧
      sr.entry = some e ∧ sr.content_size = e.size ∧
      (carve_file oracle z0 token layers target_path chunk_size).finalBuffer = some buf ∧
      sr.content_offset + sr.content_size ≤ buf.length ∧
      (carve_file oracle z0 token layers target_path chunk_size).savedContent =
        some (_extract_and_save buf sr.content_offset sr.content_size) ∧
      (_extract_and_save buf sr.content_offset sr.content_size).length = e.size := by
  unfold carve_file at h
  split at h
  · simp at h
  · split at h
    · simp at h
    · have hgoal : carve_file oracle z0 token layers target_path chunk_size =
          carveLayers oracle z0 target_path chunk_size layers := by
        unfold carve_file
        rw [if_neg (by assumption), if_neg (by assumption)]
      obtain ⟨sr, e, buf, h1, h2, h3, h4, h5, h6⟩ :=
        carveLayers_success oracle z0 target_path chunk_size layers _ rfl h
      rw [hgoal]
      exact ⟨sr, e, buf, h1, h2, h3, h4, h5, h6,
        by rw [extract_and_save_length buf _ _ h5, ← h3]⟩

/-- Witness for C1: a concrete carve that succeeds and saves the three
content bytes of the matched entry `f`. -/
theorem carve_file_success_saves_entry_size_witness :
    (carve_file c1oracle () (some ['t']) c1layers ['f'] 65536).success = true ∧
    (∃ sr e buf,
      (carve_file c1oracle () (some ['t']) c1layers ['f'] 65536).scanRes = some sr ∧
      sr.entry = some e ∧ sr.content_size = e.size ∧
      (carve_file c1oracle () (some ['t']) c1layers ['f'] 65536).finalBuffer = some buf ∧
      sr.content_offset + sr.content_size ≤ buf.length ∧
      (carve_file c1oracle () (some ['t']) c1layers ['f'] 65536).savedContent =
        some (_extract_and_save buf sr.content_offset sr.content_size) ∧
      (_extract_and_save buf sr.content_offset sr.content_size).length = e.size) :=
  ⟨by decide, carve_file_success_saves_entry_size c1oracle () (some ['t'])
    c1layers ['f'] 65536 (by decide)⟩
